import Mathlib

/-!
Verification of the oxidized-json-checker streaming JSON validator.

The definitions below are a shallow embedding of `src/internals.rs` and
`src/lib.rs`: the character-class table, the state-transition table, the
mode stack and the `JsonChecker` driver.  Bytes are modelled as `Nat`
(the `u8` range is stated where it matters), `usize::MAX` as `2^64 - 1`,
`Vec<Mode>` as a `List Mode` whose head is the vector's last element
(the top of the stack), and fallible operations return the mutated
checker together with an optional error, mirroring the `&mut self`
methods of the source.
-/

namespace Ojc

/-- Character classes, from `internals.rs` (`enum Class`). -/
inductive Class where
  | CSpace -- space
  | CWhite -- other whitespace
  | CLcurb -- {
  | CRcurb -- }
  | CLsqrb -- [
  | CRsqrb -- ]
  | CColon -- :
  | CComma -- ,
  | CQuote -- "
  | CBacks -- \
  | CSlash -- /
  | CPlus  -- +
  | CMinus -- -
  | CPoint -- .
  | CZero  -- 0
  | CDigit -- 123456789
  | CLowA  -- a
  | CLowB  -- b
  | CLowC  -- c
  | CLowD  -- d
  | CLowE  -- e
  | CLowF  -- f
  | CLowL  -- l
  | CLowN  -- n
  | CLowR  -- r
  | CLowS  -- s
  | CLowT  -- t
  | CLowU  -- u
  | CAbcdf -- ABCDF
  | CE     -- E
  | CEtc   -- everything else
  | Invalid
  deriving DecidableEq

/-- Discriminant of `Class` (`#[repr(u32)]`, declaration order), used by
`next_class as usize` indexing in `lib.rs`. -/
def Class.toIdx : Class → Nat
  | .CSpace => 0
  | .CWhite => 1
  | .CLcurb => 2
  | .CRcurb => 3
  | .CLsqrb => 4
  | .CRsqrb => 5
  | .CColon => 6
  | .CComma => 7
  | .CQuote => 8
  | .CBacks => 9
  | .CSlash => 10
  | .CPlus => 11
  | .CMinus => 12
  | .CPoint => 13
  | .CZero => 14
  | .CDigit => 15
  | .CLowA => 16
  | .CLowB => 17
  | .CLowC => 18
  | .CLowD => 19
  | .CLowE => 20
  | .CLowF => 21
  | .CLowL => 22
  | .CLowN => 23
  | .CLowR => 24
  | .CLowS => 25
  | .CLowT => 26
  | .CLowU => 27
  | .CAbcdf => 28
  | .CE => 29
  | .CEtc => 30
  | .Invalid => 31

/-- `ASCII_CLASS` from `internals.rs`: maps the 128 ASCII characters into
character classes.  Non-whitespace control characters are `Invalid`. -/
def ASCII_CLASS : List Class := [
  Class.Invalid, Class.Invalid, Class.Invalid, Class.Invalid, Class.Invalid, Class.Invalid, Class.Invalid, Class.Invalid,
  Class.Invalid, Class.CWhite, Class.CWhite, Class.Invalid, Class.Invalid, Class.CWhite, Class.Invalid, Class.Invalid,
  Class.Invalid, Class.Invalid, Class.Invalid, Class.Invalid, Class.Invalid, Class.Invalid, Class.Invalid, Class.Invalid,
  Class.Invalid, Class.Invalid, Class.Invalid, Class.Invalid, Class.Invalid, Class.Invalid, Class.Invalid, Class.Invalid,
  Class.CSpace, Class.CEtc, Class.CQuote, Class.CEtc, Class.CEtc, Class.CEtc, Class.CEtc, Class.CEtc,
  Class.CEtc, Class.CEtc, Class.CEtc, Class.CPlus, Class.CComma, Class.CMinus, Class.CPoint, Class.CSlash,
  Class.CZero, Class.CDigit, Class.CDigit, Class.CDigit, Class.CDigit, Class.CDigit, Class.CDigit, Class.CDigit,
  Class.CDigit, Class.CDigit, Class.CColon, Class.CEtc, Class.CEtc, Class.CEtc, Class.CEtc, Class.CEtc,
  Class.CEtc, Class.CAbcdf, Class.CAbcdf, Class.CAbcdf, Class.CAbcdf, Class.CE, Class.CAbcdf, Class.CEtc,
  Class.CEtc, Class.CEtc, Class.CEtc, Class.CEtc, Class.CEtc, Class.CEtc, Class.CEtc, Class.CEtc,
  Class.CEtc, Class.CEtc, Class.CEtc, Class.CEtc, Class.CEtc, Class.CEtc, Class.CEtc, Class.CEtc,
  Class.CEtc, Class.CEtc, Class.CEtc, Class.CLsqrb, Class.CBacks, Class.CRsqrb, Class.CEtc, Class.CEtc,
  Class.CEtc, Class.CLowA, Class.CLowB, Class.CLowC, Class.CLowD, Class.CLowE, Class.CLowF, Class.CEtc,
  Class.CEtc, Class.CEtc, Class.CEtc, Class.CEtc, Class.CLowL, Class.CEtc, Class.CLowN, Class.CEtc,
  Class.CEtc, Class.CEtc, Class.CLowR, Class.CLowS, Class.CLowT, Class.CLowU, Class.CEtc, Class.CEtc,
  Class.CEtc, Class.CEtc, Class.CEtc, Class.CLcurb, Class.CEtc, Class.CRcurb, Class.CEtc, Class.CEtc
]

/-- The state codes, from `internals.rs` (`enum State`): 31 grammar states,
eight action pseudo-states (`Wcl` .. `Wec`) and the `Invalid` sink. -/
inductive State where
  | Go -- start
  | Ok -- ok
  | Ob -- object
  | Ke -- key
  | Co -- colon
  | Va -- value
  | Ar -- array
  | St -- string
  | Es -- escape
  | U1 -- u1
  | U2 -- u2
  | U3 -- u3
  | U4 -- u4
  | Mi -- minus
  | Ze -- zero
  | In -- integer
  | Fr -- fraction
  | Fs -- fraction digits
  | E1 -- e
  | E2 -- ex
  | E3 -- exp
  | T1 -- tr
  | T2 -- tru
  | T3 -- true
  | F1 -- fa
  | F2 -- fal
  | F3 -- fals
  | F4 -- false
  | N1 -- nu
  | N2 -- nul
  | N3 -- null
  | Wcl -- Wrong Colon :
  | Wcm -- Wrong Comma ,
  | Wq  -- Wrong Quote "
  | Wos -- Wrong Opening Squared [
  | Woc -- Wrong Opening Curly {
  | Ws  -- Wrong Squared ]
  | Wcu -- Wrong Curly }
  | Wec -- Wrong Empty curly }
  | Invalid
  deriving DecidableEq

/-- `State::is_valid` from `internals.rs`. -/
def State.is_valid : State → Bool
  | .Wcl | .Wcm | .Wq | .Wos | .Woc | .Ws | .Wec | .Wcu | .Invalid => false
  | _ => true

/-- Discriminant of `State` (declaration order), used by
`jc.state as usize` indexing in `lib.rs`. -/
def State.toIdx : State → Nat
  | .Go => 0
  | .Ok => 1
  | .Ob => 2
  | .Ke => 3
  | .Co => 4
  | .Va => 5
  | .Ar => 6
  | .St => 7
  | .Es => 8
  | .U1 => 9
  | .U2 => 10
  | .U3 => 11
  | .U4 => 12
  | .Mi => 13
  | .Ze => 14
  | .In => 15
  | .Fr => 16
  | .Fs => 17
  | .E1 => 18
  | .E2 => 19
  | .E3 => 20
  | .T1 => 21
  | .T2 => 22
  | .T3 => 23
  | .F1 => 24
  | .F2 => 25
  | .F3 => 26
  | .F4 => 27
  | .N1 => 28
  | .N2 => 29
  | .N3 => 30
  | .Wcl => 31
  | .Wcm => 32
  | .Wq => 33
  | .Wos => 34
  | .Woc => 35
  | .Ws => 36
  | .Wcu => 37
  | .Wec => 38
  | .Invalid => 39

/-- `STATE_TRANSITION_TABLE` from `internals.rs`: 31 rows (one per grammar
state) of 31 classes each.  `.Invalid` transcribes the source's `__`. -/
def STATE_TRANSITION_TABLE : List (List State) := [
  -- start GO
  [State.Go, State.Go, State.Woc, State.Invalid, State.Wos, State.Invalid, State.Invalid, State.Invalid, State.Invalid, State.Invalid, State.Invalid, State.Invalid, State.Invalid, State.Invalid, State.Invalid, State.Invalid,
   State.Invalid, State.Invalid, State.Invalid, State.Invalid, State.Invalid, State.Invalid, State.Invalid, State.Invalid, State.Invalid, State.Invalid, State.Invalid, State.Invalid, State.Invalid, State.Invalid, State.Invalid],
  -- ok OK
  [State.Ok, State.Ok, State.Invalid, State.Wcu, State.Invalid, State.Ws, State.Invalid, State.Wcm, State.Invalid, State.Invalid, State.Invalid, State.Invalid, State.Invalid, State.Invalid, State.Invalid, State.Invalid,
   State.Invalid, State.Invalid, State.Invalid, State.Invalid, State.Invalid, State.Invalid, State.Invalid, State.Invalid, State.Invalid, State.Invalid, State.Invalid, State.Invalid, State.Invalid, State.Invalid, State.Invalid],
  -- object OB
  [State.Ob, State.Ob, State.Invalid, State.Wec, State.Invalid, State.Invalid, State.Invalid, State.Invalid, State.St, State.Invalid, State.Invalid, State.Invalid, State.Invalid, State.Invalid, State.Invalid, State.Invalid,
   State.Invalid, State.Invalid, State.Invalid, State.Invalid, State.Invalid, State.Invalid, State.Invalid, State.Invalid, State.Invalid, State.Invalid, State.Invalid, State.Invalid, State.Invalid, State.Invalid, State.Invalid],
  -- key KE
  [State.Ke, State.Ke, State.Invalid, State.Invalid, State.Invalid, State.Invalid, State.Invalid, State.Invalid, State.St, State.Invalid, State.Invalid, State.Invalid, State.Invalid, State.Invalid, State.Invalid, State.Invalid,
   State.Invalid, State.Invalid, State.Invalid, State.Invalid, State.Invalid, State.Invalid, State.Invalid, State.Invalid, State.Invalid, State.Invalid, State.Invalid, State.Invalid, State.Invalid, State.Invalid, State.Invalid],
  -- colon CO
  [State.Co, State.Co, State.Invalid, State.Invalid, State.Invalid, State.Invalid, State.Wcl, State.Invalid, State.Invalid, State.Invalid, State.Invalid, State.Invalid, State.Invalid, State.Invalid, State.Invalid, State.Invalid,
   State.Invalid, State.Invalid, State.Invalid, State.Invalid, State.Invalid, State.Invalid, State.Invalid, State.Invalid, State.Invalid, State.Invalid, State.Invalid, State.Invalid, State.Invalid, State.Invalid, State.Invalid],
  -- value VA
  [State.Va, State.Va, State.Woc, State.Invalid, State.Wos, State.Invalid, State.Invalid, State.Invalid, State.St, State.Invalid, State.Invalid, State.Invalid, State.Mi, State.Invalid, State.Ze, State.In,
   State.Invalid, State.Invalid, State.Invalid, State.Invalid, State.Invalid, State.F1, State.Invalid, State.N1, State.Invalid, State.Invalid, State.T1, State.Invalid, State.Invalid, State.Invalid, State.Invalid],
  -- array AR
  [State.Ar, State.Ar, State.Woc, State.Invalid, State.Wos, State.Ws, State.Invalid, State.Invalid, State.St, State.Invalid, State.Invalid, State.Invalid, State.Mi, State.Invalid, State.Ze, State.In,
   State.Invalid, State.Invalid, State.Invalid, State.Invalid, State.Invalid, State.F1, State.Invalid, State.N1, State.Invalid, State.Invalid, State.T1, State.Invalid, State.Invalid, State.Invalid, State.Invalid],
  -- string ST
  [State.St, State.Invalid, State.St, State.St, State.St, State.St, State.St, State.St, State.Wq, State.Es, State.St, State.St, State.St, State.St, State.St, State.St,
   State.St, State.St, State.St, State.St, State.St, State.St, State.St, State.St, State.St, State.St, State.St, State.St, State.St, State.St, State.St],
  -- escape ES
  [State.Invalid, State.Invalid, State.Invalid, State.Invalid, State.Invalid, State.Invalid, State.Invalid, State.Invalid, State.St, State.St, State.St, State.Invalid, State.Invalid, State.Invalid, State.Invalid, State.Invalid,
   State.Invalid, State.St, State.Invalid, State.Invalid, State.Invalid, State.St, State.Invalid, State.St, State.St, State.Invalid, State.St, State.U1, State.Invalid, State.Invalid, State.Invalid],
  -- u1 U1
  [State.Invalid, State.Invalid, State.Invalid, State.Invalid, State.Invalid, State.Invalid, State.Invalid, State.Invalid, State.Invalid, State.Invalid, State.Invalid, State.Invalid, State.Invalid, State.Invalid, State.U2, State.U2,
   State.U2, State.U2, State.U2, State.U2, State.U2, State.U2, State.Invalid, State.Invalid, State.Invalid, State.Invalid, State.Invalid, State.Invalid, State.U2, State.U2, State.Invalid],
  -- u2 U2
  [State.Invalid, State.Invalid, State.Invalid, State.Invalid, State.Invalid, State.Invalid, State.Invalid, State.Invalid, State.Invalid, State.Invalid, State.Invalid, State.Invalid, State.Invalid, State.Invalid, State.U3, State.U3,
   State.U3, State.U3, State.U3, State.U3, State.U3, State.U3, State.Invalid, State.Invalid, State.Invalid, State.Invalid, State.Invalid, State.Invalid, State.U3, State.U3, State.Invalid],
  -- u3 U3
  [State.Invalid, State.Invalid, State.Invalid, State.Invalid, State.Invalid, State.Invalid, State.Invalid, State.Invalid, State.Invalid, State.Invalid, State.Invalid, State.Invalid, State.Invalid, State.Invalid, State.U4, State.U4,
   State.U4, State.U4, State.U4, State.U4, State.U4, State.U4, State.Invalid, State.Invalid, State.Invalid, State.Invalid, State.Invalid, State.Invalid, State.U4, State.U4, State.Invalid],
  -- u4 U4
  [State.Invalid, State.Invalid, State.Invalid, State.Invalid, State.Invalid, State.Invalid, State.Invalid, State.Invalid, State.Invalid, State.Invalid, State.Invalid, State.Invalid, State.Invalid, State.Invalid, State.St, State.St,
   State.St, State.St, State.St, State.St, State.St, State.St, State.Invalid, State.Invalid, State.Invalid, State.Invalid, State.Invalid, State.Invalid, State.St, State.St, State.Invalid],
  -- minus MI
  [State.Invalid, State.Invalid, State.Invalid, State.Invalid, State.Invalid, State.Invalid, State.Invalid, State.Invalid, State.Invalid, State.Invalid, State.Invalid, State.Invalid, State.Invalid, State.Invalid, State.Ze, State.In,
   State.Invalid, State.Invalid, State.Invalid, State.Invalid, State.Invalid, State.Invalid, State.Invalid, State.Invalid, State.Invalid, State.Invalid, State.Invalid, State.Invalid, State.Invalid, State.Invalid, State.Invalid],
  -- zero ZE
  [State.Ok, State.Ok, State.Invalid, State.Wcu, State.Invalid, State.Ws, State.Invalid, State.Wcm, State.Invalid, State.Invalid, State.Invalid, State.Invalid, State.Invalid, State.Fr, State.Invalid, State.Invalid,
   State.Invalid, State.Invalid, State.Invalid, State.Invalid, State.E1, State.Invalid, State.Invalid, State.Invalid, State.Invalid, State.Invalid, State.Invalid, State.Invalid, State.Invalid, State.E1, State.Invalid],
  -- int IN
  [State.Ok, State.Ok, State.Invalid, State.Wcu, State.Invalid, State.Ws, State.Invalid, State.Wcm, State.Invalid, State.Invalid, State.Invalid, State.Invalid, State.Invalid, State.Fr, State.In, State.In,
   State.Invalid, State.Invalid, State.Invalid, State.Invalid, State.E1, State.Invalid, State.Invalid, State.Invalid, State.Invalid, State.Invalid, State.Invalid, State.Invalid, State.Invalid, State.E1, State.Invalid],
  -- frac FR
  [State.Invalid, State.Invalid, State.Invalid, State.Invalid, State.Invalid, State.Invalid, State.Invalid, State.Invalid, State.Invalid, State.Invalid, State.Invalid, State.Invalid, State.Invalid, State.Invalid, State.Fs, State.Fs,
   State.Invalid, State.Invalid, State.Invalid, State.Invalid, State.Invalid, State.Invalid, State.Invalid, State.Invalid, State.Invalid, State.Invalid, State.Invalid, State.Invalid, State.Invalid, State.Invalid, State.Invalid],
  -- fracs FS
  [State.Ok, State.Ok, State.Invalid, State.Wcu, State.Invalid, State.Ws, State.Invalid, State.Wcm, State.Invalid, State.Invalid, State.Invalid, State.Invalid, State.Invalid, State.Invalid, State.Fs, State.Fs,
   State.Invalid, State.Invalid, State.Invalid, State.Invalid, State.E1, State.Invalid, State.Invalid, State.Invalid, State.Invalid, State.Invalid, State.Invalid, State.Invalid, State.Invalid, State.E1, State.Invalid],
  -- e E1
  [State.Invalid, State.Invalid, State.Invalid, State.Invalid, State.Invalid, State.Invalid, State.Invalid, State.Invalid, State.Invalid, State.Invalid, State.Invalid, State.E2, State.E2, State.Invalid, State.E3, State.E3,
   State.Invalid, State.Invalid, State.Invalid, State.Invalid, State.Invalid, State.Invalid, State.Invalid, State.Invalid, State.Invalid, State.Invalid, State.Invalid, State.Invalid, State.Invalid, State.Invalid, State.Invalid],
  -- ex E2
  [State.Invalid, State.Invalid, State.Invalid, State.Invalid, State.Invalid, State.Invalid, State.Invalid, State.Invalid, State.Invalid, State.Invalid, State.Invalid, State.Invalid, State.Invalid, State.Invalid, State.E3, State.E3,
   State.Invalid, State.Invalid, State.Invalid, State.Invalid, State.Invalid, State.Invalid, State.Invalid, State.Invalid, State.Invalid, State.Invalid, State.Invalid, State.Invalid, State.Invalid, State.Invalid, State.Invalid],
  -- exp E3
  [State.Ok, State.Ok, State.Invalid, State.Wcu, State.Invalid, State.Ws, State.Invalid, State.Wcm, State.Invalid, State.Invalid, State.Invalid, State.Invalid, State.Invalid, State.Invalid, State.E3, State.E3,
   State.Invalid, State.Invalid, State.Invalid, State.Invalid, State.Invalid, State.Invalid, State.Invalid, State.Invalid, State.Invalid, State.Invalid, State.Invalid, State.Invalid, State.Invalid, State.Invalid, State.Invalid],
  -- tr T1
  [State.Invalid, State.Invalid, State.Invalid, State.Invalid, State.Invalid, State.Invalid, State.Invalid, State.Invalid, State.Invalid, State.Invalid, State.Invalid, State.Invalid, State.Invalid, State.Invalid, State.Invalid, State.Invalid,
   State.Invalid, State.Invalid, State.Invalid, State.Invalid, State.Invalid, State.Invalid, State.Invalid, State.Invalid, State.T2, State.Invalid, State.Invalid, State.Invalid, State.Invalid, State.Invalid, State.Invalid],
  -- tru T2
  [State.Invalid, State.Invalid, State.Invalid, State.Invalid, State.Invalid, State.Invalid, State.Invalid, State.Invalid, State.Invalid, State.Invalid, State.Invalid, State.Invalid, State.Invalid, State.Invalid, State.Invalid, State.Invalid,
   State.Invalid, State.Invalid, State.Invalid, State.Invalid, State.Invalid, State.Invalid, State.Invalid, State.Invalid, State.Invalid, State.Invalid, State.Invalid, State.T3, State.Invalid, State.Invalid, State.Invalid],
  -- true T3
  [State.Invalid, State.Invalid, State.Invalid, State.Invalid, State.Invalid, State.Invalid, State.Invalid, State.Invalid, State.Invalid, State.Invalid, State.Invalid, State.Invalid, State.Invalid, State.Invalid, State.Invalid, State.Invalid,
   State.Invalid, State.Invalid, State.Invalid, State.Invalid, State.Ok, State.Invalid, State.Invalid, State.Invalid, State.Invalid, State.Invalid, State.Invalid, State.Invalid, State.Invalid, State.Invalid, State.Invalid],
  -- fa F1
  [State.Invalid, State.Invalid, State.Invalid, State.Invalid, State.Invalid, State.Invalid, State.Invalid, State.Invalid, State.Invalid, State.Invalid, State.Invalid, State.Invalid, State.Invalid, State.Invalid, State.Invalid, State.Invalid,
   State.F2, State.Invalid, State.Invalid, State.Invalid, State.Invalid, State.Invalid, State.Invalid, State.Invalid, State.Invalid, State.Invalid, State.Invalid, State.Invalid, State.Invalid, State.Invalid, State.Invalid],
  -- fal F2
  [State.Invalid, State.Invalid, State.Invalid, State.Invalid, State.Invalid, State.Invalid, State.Invalid, State.Invalid, State.Invalid, State.Invalid, State.Invalid, State.Invalid, State.Invalid, State.Invalid, State.Invalid, State.Invalid,
   State.Invalid, State.Invalid, State.Invalid, State.Invalid, State.Invalid, State.Invalid, State.F3, State.Invalid, State.Invalid, State.Invalid, State.Invalid, State.Invalid, State.Invalid, State.Invalid, State.Invalid],
  -- fals F3
  [State.Invalid, State.Invalid, State.Invalid, State.Invalid, State.Invalid, State.Invalid, State.Invalid, State.Invalid, State.Invalid, State.Invalid, State.Invalid, State.Invalid, State.Invalid, State.Invalid, State.Invalid, State.Invalid,
   State.Invalid, State.Invalid, State.Invalid, State.Invalid, State.Invalid, State.Invalid, State.Invalid, State.Invalid, State.Invalid, State.F4, State.Invalid, State.Invalid, State.Invalid, State.Invalid, State.Invalid],
  -- false F4
  [State.Invalid, State.Invalid, State.Invalid, State.Invalid, State.Invalid, State.Invalid, State.Invalid, State.Invalid, State.Invalid, State.Invalid, State.Invalid, State.Invalid, State.Invalid, State.Invalid, State.Invalid, State.Invalid,
   State.Invalid, State.Invalid, State.Invalid, State.Invalid, State.Ok, State.Invalid, State.Invalid, State.Invalid, State.Invalid, State.Invalid, State.Invalid, State.Invalid, State.Invalid, State.Invalid, State.Invalid],
  -- nu N1
  [State.Invalid, State.Invalid, State.Invalid, State.Invalid, State.Invalid, State.Invalid, State.Invalid, State.Invalid, State.Invalid, State.Invalid, State.Invalid, State.Invalid, State.Invalid, State.Invalid, State.Invalid, State.Invalid,
   State.Invalid, State.Invalid, State.Invalid, State.Invalid, State.Invalid, State.Invalid, State.Invalid, State.Invalid, State.Invalid, State.Invalid, State.Invalid, State.N2, State.Invalid, State.Invalid, State.Invalid],
  -- nul N2
  [State.Invalid, State.Invalid, State.Invalid, State.Invalid, State.Invalid, State.Invalid, State.Invalid, State.Invalid, State.Invalid, State.Invalid, State.Invalid, State.Invalid, State.Invalid, State.Invalid, State.Invalid, State.Invalid,
   State.Invalid, State.Invalid, State.Invalid, State.Invalid, State.Invalid, State.Invalid, State.N3, State.Invalid, State.Invalid, State.Invalid, State.Invalid, State.Invalid, State.Invalid, State.Invalid, State.Invalid],
  -- null N3
  [State.Invalid, State.Invalid, State.Invalid, State.Invalid, State.Invalid, State.Invalid, State.Invalid, State.Invalid, State.Invalid, State.Invalid, State.Invalid, State.Invalid, State.Invalid, State.Invalid, State.Invalid, State.Invalid,
   State.Invalid, State.Invalid, State.Invalid, State.Invalid, State.Invalid, State.Invalid, State.Ok, State.Invalid, State.Invalid, State.Invalid, State.Invalid, State.Invalid, State.Invalid, State.Invalid, State.Invalid]
]

/-- Modes pushed on the stack.  `internals.rs` declares `Array`, `Done`,
`Key`, `Object`; the `String` variant is additionally required by the
quote dispatch in `lib.rs` (`Mode::String`), which pushes it for a bare
top-level string (spec: variants that track quote-opening context on the
stack). -/
inductive Mode where
  | Array
  | Done
  | Key
  | Object
  | String
  deriving DecidableEq

/-- The error type returned by the `JsonChecker` (`enum Error` in `lib.rs`). -/
inductive Error where
  | InvalidCharacter
  | EmptyCurlyBraces
  | OrphanCurlyBrace
  | OrphanSquareBrace
  | MaxDepthReached
  | InvalidQuote
  | InvalidComma
  | InvalidColon
  | InvalidState
  | IncompleteElement
  deriving DecidableEq

/-- Any valid JSON type (`enum JsonType` in `lib.rs`). -/
inductive JsonType where
  | Null
  | Bool
  | Number
  | String
  | Array
  | Object
  deriving DecidableEq

/-- The `JsonChecker` driver state (`struct JsonChecker` in `lib.rs`,
without the wrapped reader).  The `stack : List Mode` stores the top of
the `Vec<Mode>` at its head. -/
structure JsonChecker where
  state : State
  error : Option Error
  outerType : Option JsonType
  maxDepth : Nat
  stack : List Mode
  deriving DecidableEq

/-- Byte classification as performed inline by `internal_next_byte`
(`lib.rs` lines 288-293): bytes `>= 128` are `CEtc`, the rest go through
`ASCII_CLASS`. -/
def classify (b : Nat) : Class :=
  if b ≥ 128 then Class.CEtc else ASCII_CLASS.getD b Class.Invalid

/-- `STATE_TRANSITION_TABLE[state as usize][class as usize]`. -/
def lookupTransition (s : State) (c : Class) : State :=
  (STATE_TRANSITION_TABLE.getD s.toIdx []).getD c.toIdx State.Invalid

/-- `usize::max_value()` on a 64-bit target. -/
def USIZE_MAX : Nat := 2 ^ 64 - 1

namespace JsonChecker

/-- `JsonChecker::with_max_depth`. -/
def with_max_depth (maxDepth : Nat) : JsonChecker :=
  { state := State.Go
    error := none
    outerType := none
    maxDepth := maxDepth
    stack := [Mode.Done] }

/-- `JsonChecker::new`: unrestricted depth (`usize::max_value()`). -/
def new : JsonChecker := with_max_depth USIZE_MAX

/-- `JsonChecker::push`: refuses (returning `false`) when
`stack.len() + 1 >= max_depth`, otherwise pushes the mode. -/
def push (c : JsonChecker) (m : Mode) : Bool × JsonChecker :=
  if c.stack.length + 1 ≥ c.maxDepth then (false, c)
  else (true, { c with stack := m :: c.stack })

/-- `JsonChecker::pop`: pops the stack unconditionally (when non-empty)
and reports whether the popped mode matches the expectation
(`self.stack.pop() == Some(mode)`). -/
def pop (c : JsonChecker) (m : Mode) : Bool × JsonChecker :=
  match c.stack with
  | [] => (false, c)
  | x :: rest => (decide (x = m), { c with stack := rest })

/-- The "save the type we met if not already saved" block of
`internal_next_byte` (`lib.rs` lines 303-314). -/
def saveType (jc : JsonChecker) (nextState : State) : JsonChecker :=
  if jc.outerType = none then
    match nextState with
    | State.N1 => { jc with outerType := some JsonType.Null }
    | State.T1 => { jc with outerType := some JsonType.Bool }
    | State.F1 => { jc with outerType := some JsonType.Bool }
    | State.In => { jc with outerType := some JsonType.Number }
    | State.Wq => { jc with outerType := some JsonType.String }
    | State.Wos => { jc with outerType := some JsonType.Array }
    | State.Woc => { jc with outerType := some JsonType.Object }
    | _ => jc
  else jc

/-- The action-dispatch `match next_state` of `internal_next_byte`
(`lib.rs` lines 316-391), acting on the checker after `saveType`. -/
def dispatch (jc : JsonChecker) (nextState : State) : JsonChecker × Option Error :=
  match nextState with
  | State.Wec => -- empty }
    match jc.pop Mode.Key with
    | (true, jc1) => ({ jc1 with state := State.Ok }, none)
    | (false, jc1) => (jc1, some Error.EmptyCurlyBraces)
  | State.Wcu => -- }
    match jc.pop Mode.Object with
    | (true, jc1) => ({ jc1 with state := State.Ok }, none)
    | (false, jc1) => (jc1, some Error.OrphanCurlyBrace)
  | State.Ws => -- ]
    match jc.pop Mode.Array with
    | (true, jc1) => ({ jc1 with state := State.Ok }, none)
    | (false, jc1) => (jc1, some Error.OrphanSquareBrace)
  | State.Woc => -- {
    match jc.push Mode.Key with
    | (true, jc1) => ({ jc1 with state := State.Ob }, none)
    | (false, jc1) => (jc1, some Error.MaxDepthReached)
  | State.Wos => -- [
    match jc.push Mode.Array with
    | (true, jc1) => ({ jc1 with state := State.Ar }, none)
    | (false, jc1) => (jc1, some Error.MaxDepthReached)
  | State.Wq => -- "
    match jc.stack with
    | Mode.Done :: _ =>
      match jc.push Mode.String with
      | (true, jc1) => ({ jc1 with state := State.St }, none)
      | (false, jc1) => (jc1, some Error.MaxDepthReached)
    | Mode.String :: _ =>
      ({ (jc.pop Mode.String).2 with state := State.Ok }, none)
    | Mode.Key :: _ => ({ jc with state := State.Co }, none)
    | Mode.Array :: _ => ({ jc with state := State.Ok }, none)
    | Mode.Object :: _ => ({ jc with state := State.Ok }, none)
    | [] => (jc, some Error.InvalidQuote)
  | State.Wcm => -- ,
    match jc.stack with
    | Mode.Object :: _ =>
      match jc.pop Mode.Object with
      | (true, jc1) =>
        match jc1.push Mode.Key with
        | (true, jc2) => ({ jc2 with state := State.Ke }, none)
        | (false, jc2) => (jc2, some Error.InvalidComma)
      | (false, jc1) => (jc1, some Error.InvalidComma)
    | Mode.Array :: _ => ({ jc with state := State.Va }, none)
    | _ => (jc, some Error.InvalidComma)
  | State.Wcl => -- :
    match jc.pop Mode.Key with
    | (true, jc1) =>
      match jc1.push Mode.Object with
      | (true, jc2) => ({ jc2 with state := State.Va }, none)
      | (false, jc2) => (jc2, some Error.InvalidColon)
    | (false, jc1) => (jc1, some Error.InvalidColon)
  | State.Invalid => (jc, some Error.InvalidState)
  | s => ({ jc with state := s }, none)

/-- `internal_next_byte` from `lib.rs`: classify, reject `Invalid`
classes, look the transition up and dispatch.  Returns the mutated
checker together with the error, mirroring `&mut self` plus `Result`. -/
def internal_next_byte (jc : JsonChecker) (b : Nat) : JsonChecker × Option Error :=
  if classify b = Class.Invalid then (jc, some Error.InvalidCharacter)
  else
    dispatch (saveType jc (lookupTransition jc.state (classify b)))
      (lookupTransition jc.state (classify b))

/-- `JsonChecker::next_byte`: fused behaviour (a latched error is
returned immediately), otherwise runs `internal_next_byte` and latches
any error it returns. -/
def next_byte (c : JsonChecker) (b : Nat) : JsonChecker × Option Error :=
  match c.error with
  | some e => (c, some e)
  | none =>
    match internal_next_byte c b with
    | (c1, none) => (c1, none)
    | (c1, some e) => ({ c1 with error := some e }, some e)

/-- Feeding a list of bytes one by one through `next_byte`, stopping at
the first error (`chunk.iter().try_for_each(|b| self.next_byte(*b))`). -/
def feedAll : JsonChecker → List Nat → JsonChecker × Option Error
  | c, [] => (c, none)
  | c, b :: rest =>
    match next_byte c b with
    | (c1, none) => feedAll c1 rest
    | (c1, some e) => (c1, some e)

/-- Does an 8-byte chunk contain a quote, backslash, tab, newline or
carriage return?  (The SIMD sentinel test of `next_bytes`.) -/
def chunkHasStopByte (chunk : List Nat) : Bool :=
  chunk.any fun b => b == 34 || b == 92 || b == 9 || b == 10 || b == 13

/-- `JsonChecker::next_bytes`: processes the slice in chunks of 8 bytes;
a full chunk met in the string-body state with none of the five sentinel
bytes is skipped wholesale, every other chunk is fed byte by byte. -/
def next_bytes : JsonChecker → List Nat → JsonChecker × Option Error
  | c, b1 :: b2 :: b3 :: b4 :: b5 :: b6 :: b7 :: b8 :: rest =>
    if c.state = State.St ∧ chunkHasStopByte [b1, b2, b3, b4, b5, b6, b7, b8] = false then
      next_bytes c rest
    else
      match feedAll c [b1, b2, b3, b4, b5, b6, b7, b8] with
      | (c1, none) => next_bytes c1 rest
      | (c1, some e) => (c1, some e)
  | c, l => feedAll c l

/-- The terminal-state test of `into_inner` (`lib.rs` lines 418-421). -/
def acceptState (s : State) : Bool :=
  match s with
  | State.Ok | State.In | State.Fr | State.Fs | State.E3 => true
  | _ => false

/-- `JsonChecker::into_inner` / `finish`: succeeds when the state test
passes and popping the stack yields the `Done` sentinel, returning the
outer-type slot (`none` models the `expect` panic on an unset slot);
otherwise fails with `IncompleteElement`.  The latched error is not
consulted. -/
def into_inner (c : JsonChecker) : Except Error (Option JsonType) :=
  if acceptState c.state && (c.pop Mode.Done).1 then Except.ok c.outerType
  else Except.error Error.IncompleteElement

end JsonChecker

/-- `validate_bytes` from `lib.rs`: one-shot validation of a byte slice
with an unrestricted-depth checker. -/
def validate_bytes (bytes : List Nat) : Except Error (Option JsonType) :=
  match JsonChecker.new.next_bytes bytes with
  | (_, some e) => Except.error e
  | (c, none) => c.into_inner

/-- Checker states reachable through the public protocol: freshly
constructed, or the result of feeding one more byte. -/
inductive Reachable : JsonChecker → Prop where
  | init (d : Nat) : Reachable (JsonChecker.with_max_depth d)
  | step (c : JsonChecker) (b : Nat) (h : Reachable c) : Reachable (c.next_byte b).1

-- Sanity checks on the transcribed tables (they are development checks,
-- stated once and proved by evaluation).
set_option maxRecDepth 4000 in
theorem ASCII_CLASS_length : ASCII_CLASS.length = 128 := by decide

set_option maxRecDepth 20000 in
theorem STATE_TRANSITION_TABLE_shape :
    STATE_TRANSITION_TABLE.length = 31 ∧
    STATE_TRANSITION_TABLE.all (fun r => r.length = 31) = true := by decide

end Ojc

namespace Ojc

namespace JsonChecker

/-! ### Helper lemmas about `pop`, `push`, `saveType` and `dispatch` -/

theorem pop_eq_true {c : JsonChecker} {m : Mode} {c1 : JsonChecker}
    (h : c.pop m = (true, c1)) :
    c.stack = m :: c1.stack ∧ c1 = { c with stack := c1.stack } := by
  cases hs : c.stack with
  | nil => simp [pop, hs] at h
  | cons x rest =>
    simp [pop, hs] at h
    obtain ⟨hx, hc⟩ := h
    subst hx
    cases hc
    exact ⟨rfl, rfl⟩

theorem pop_eq_false {c : JsonChecker} {m : Mode} {c1 : JsonChecker}
    (h : c.pop m = (false, c1)) :
    (c.stack = [] ∧ c1 = c) ∨
      ∃ x, c.stack = x :: c1.stack ∧ x ≠ m ∧ c1 = { c with stack := c1.stack } := by
  cases hs : c.stack with
  | nil =>
    simp [pop, hs] at h
    exact Or.inl ⟨rfl, h.symm⟩
  | cons x rest =>
    simp [pop, hs] at h
    obtain ⟨hx, hc⟩ := h
    cases hc
    exact Or.inr ⟨x, rfl, hx, rfl⟩

theorem push_eq_true {c : JsonChecker} {m : Mode} {c1 : JsonChecker}
    (h : c.push m = (true, c1)) :
    c.stack.length + 1 < c.maxDepth ∧ c1 = { c with stack := m :: c.stack } := by
  unfold push at h
  split at h
  · simp at h
  · next hlt =>
    simp at h
    exact ⟨by omega, h.symm⟩

theorem push_eq_false {c : JsonChecker} {m : Mode} {c1 : JsonChecker}
    (h : c.push m = (false, c1)) :
    c.stack.length + 1 ≥ c.maxDepth ∧ c1 = c := by
  unfold push at h
  split at h
  · next hge => simp at h; exact ⟨hge, h.symm⟩
  · simp at h

theorem saveType_state (jc : JsonChecker) (ns : State) : (saveType jc ns).state = jc.state := by
  unfold saveType
  split
  · split <;> rfl
  · rfl

theorem saveType_stack (jc : JsonChecker) (ns : State) : (saveType jc ns).stack = jc.stack := by
  unfold saveType
  split
  · split <;> rfl
  · rfl

theorem saveType_error (jc : JsonChecker) (ns : State) : (saveType jc ns).error = jc.error := by
  unfold saveType
  split
  · split <;> rfl
  · rfl

theorem saveType_maxDepth (jc : JsonChecker) (ns : State) :
    (saveType jc ns).maxDepth = jc.maxDepth := by
  unfold saveType
  split
  · split <;> rfl
  · rfl

theorem saveType_of_some {jc : JsonChecker} (ns : State) (h : jc.outerType ≠ none) :
    saveType jc ns = jc := by
  unfold saveType
  rw [if_neg h]

theorem saveType_outer_none {jc : JsonChecker} {ns : State}
    (h : (saveType jc ns).outerType = none) : jc.outerType = none := by
  unfold saveType at h
  split at h
  · assumption
  · exact h

end JsonChecker

end Ojc

namespace Ojc

namespace JsonChecker

theorem pop_eq_fields {c : JsonChecker} {m : Mode} {b : Bool} {c1 : JsonChecker}
    (h : c.pop m = (b, c1)) :
    c1.outerType = c.outerType ∧ c1.maxDepth = c.maxDepth ∧
    c1.error = c.error ∧ c1.state = c.state := by
  have hc : c1 = (c.pop m).2 := by rw [h]
  subst hc
  cases hs : c.stack <;> simp [pop, hs]

theorem push_eq_fields {c : JsonChecker} {m : Mode} {b : Bool} {c1 : JsonChecker}
    (h : c.push m = (b, c1)) :
    c1.outerType = c.outerType ∧ c1.maxDepth = c.maxDepth ∧
    c1.error = c.error ∧ c1.state = c.state := by
  have hc : c1 = (c.push m).2 := by rw [h]
  subst hc
  unfold push
  split <;> simp

theorem pop_snd_outerType (c : JsonChecker) (m : Mode) : (c.pop m).2.outerType = c.outerType := by
  cases hs : c.stack <;> simp [pop, hs]

theorem pop_snd_maxDepth (c : JsonChecker) (m : Mode) : (c.pop m).2.maxDepth = c.maxDepth := by
  cases hs : c.stack <;> simp [pop, hs]

theorem pop_snd_error (c : JsonChecker) (m : Mode) : (c.pop m).2.error = c.error := by
  cases hs : c.stack <;> simp [pop, hs]

theorem pop_snd_state (c : JsonChecker) (m : Mode) : (c.pop m).2.state = c.state := by
  cases hs : c.stack <;> simp [pop, hs]

/-- `dispatch` never touches the outer-type slot, the depth bound or the
error latch. -/
theorem dispatch_fields (jc : JsonChecker) (ns : State) :
    (dispatch jc ns).1.outerType = jc.outerType ∧
    (dispatch jc ns).1.maxDepth = jc.maxDepth ∧
    (dispatch jc ns).1.error = jc.error := by
  unfold dispatch
  split
  all_goals repeat' split
  all_goals try exact ⟨rfl, rfl, rfl⟩
  all_goals try exact ⟨pop_snd_outerType .., pop_snd_maxDepth .., pop_snd_error ..⟩
  case h_1.h_1 =>
    rename_i c1 h1
    rcases pop_eq_fields h1 with ⟨e1, e2, e3, _⟩
    exact ⟨e1, e2, e3⟩
  case h_1.h_2 =>
    rename_i c1 h1
    rcases pop_eq_fields h1 with ⟨e1, e2, e3, _⟩
    exact ⟨e1, e2, e3⟩
  case h_2.h_1 =>
    rename_i c1 h1
    rcases pop_eq_fields h1 with ⟨e1, e2, e3, _⟩
    exact ⟨e1, e2, e3⟩
  case h_2.h_2 =>
    rename_i c1 h1
    rcases pop_eq_fields h1 with ⟨e1, e2, e3, _⟩
    exact ⟨e1, e2, e3⟩
  case h_3.h_1 =>
    rename_i c1 h1
    rcases pop_eq_fields h1 with ⟨e1, e2, e3, _⟩
    exact ⟨e1, e2, e3⟩
  case h_3.h_2 =>
    rename_i c1 h1
    rcases pop_eq_fields h1 with ⟨e1, e2, e3, _⟩
    exact ⟨e1, e2, e3⟩
  case h_4.h_1 =>
    rename_i c1 h1
    rcases push_eq_fields h1 with ⟨e1, e2, e3, _⟩
    exact ⟨e1, e2, e3⟩
  case h_4.h_2 =>
    rename_i c1 h1
    rcases push_eq_fields h1 with ⟨e1, e2, e3, _⟩
    exact ⟨e1, e2, e3⟩
  case h_5.h_1 =>
    rename_i c1 h1
    rcases push_eq_fields h1 with ⟨e1, e2, e3, _⟩
    exact ⟨e1, e2, e3⟩
  case h_5.h_2 =>
    rename_i c1 h1
    rcases push_eq_fields h1 with ⟨e1, e2, e3, _⟩
    exact ⟨e1, e2, e3⟩
  case h_6.h_1.h_1 =>
    rename_i c1 h1
    rcases push_eq_fields h1 with ⟨e1, e2, e3, _⟩
    exact ⟨e1, e2, e3⟩
  case h_6.h_1.h_2 =>
    rename_i c1 h1
    rcases push_eq_fields h1 with ⟨e1, e2, e3, _⟩
    exact ⟨e1, e2, e3⟩
  case h_7.h_1.h_1.h_1 =>
    rename_i c1 h1 x2 c2 h2
    rcases pop_eq_fields h1 with ⟨a1, a2, a3, _⟩
    rcases push_eq_fields h2 with ⟨b1, b2, b3, _⟩
    exact ⟨b1.trans a1, b2.trans a2, b3.trans a3⟩
  case h_7.h_1.h_1.h_2 =>
    rename_i c1 h1 x2 c2 h2
    rcases pop_eq_fields h1 with ⟨a1, a2, a3, _⟩
    rcases push_eq_fields h2 with ⟨b1, b2, b3, _⟩
    exact ⟨b1.trans a1, b2.trans a2, b3.trans a3⟩
  case h_7.h_1.h_2 =>
    rename_i c1 h1
    rcases pop_eq_fields h1 with ⟨e1, e2, e3, _⟩
    exact ⟨e1, e2, e3⟩
  case h_8.h_1.h_1 =>
    rename_i c1 h1 x2 c2 h2
    rcases pop_eq_fields h1 with ⟨a1, a2, a3, _⟩
    rcases push_eq_fields h2 with ⟨b1, b2, b3, _⟩
    exact ⟨b1.trans a1, b2.trans a2, b3.trans a3⟩
  case h_8.h_1.h_2 =>
    rename_i c1 h1 x2 c2 h2
    rcases pop_eq_fields h1 with ⟨a1, a2, a3, _⟩
    rcases push_eq_fields h2 with ⟨b1, b2, b3, _⟩
    exact ⟨b1.trans a1, b2.trans a2, b3.trans a3⟩
  case h_8.h_2 =>
    rename_i c1 h1
    rcases pop_eq_fields h1 with ⟨e1, e2, e3, _⟩
    exact ⟨e1, e2, e3⟩

end JsonChecker

end Ojc

namespace Ojc

/-- The stack shape maintained while no error has been latched: a single
`Done` sentinel at the bottom and no `Done` anywhere else. -/
def DoneBottom (s : List Mode) : Prop :=
  ∃ l, s = l ++ [Mode.Done] ∧ Mode.Done ∉ l

theorem doneBottom_single : DoneBottom [Mode.Done] :=
  ⟨[], rfl, List.not_mem_nil _⟩

theorem doneBottom_ne_nil {s : List Mode} (h : DoneBottom s) : s ≠ [] := by
  obtain ⟨l, hl, -⟩ := h
  subst hl
  simp

theorem doneBottom_cons_done {rest : List Mode} (h : DoneBottom (Mode.Done :: rest)) :
    rest = [] := by
  obtain ⟨l, hl, hn⟩ := h
  cases l with
  | nil => simpa using hl
  | cons a l' =>
    rw [List.cons_append] at hl
    obtain ⟨ha, -⟩ := List.cons.inj hl
    exact absurd (ha ▸ List.mem_cons_self a l') hn

theorem doneBottom_cons {m : Mode} {rest : List Mode} (h : DoneBottom (m :: rest))
    (hm : m ≠ Mode.Done) : DoneBottom rest := by
  obtain ⟨l, hl, hn⟩ := h
  cases l with
  | nil =>
    have hml : m = Mode.Done ∧ rest = [] := by simpa using hl
    exact absurd hml.1 hm
  | cons a l' =>
    rw [List.cons_append] at hl
    obtain ⟨-, hrest⟩ := List.cons.inj hl
    exact ⟨l', hrest, fun hmem => hn (List.mem_cons_of_mem a hmem)⟩

theorem doneBottom_push {m : Mode} {s : List Mode} (h : DoneBottom s)
    (hm : m ≠ Mode.Done) : DoneBottom (m :: s) := by
  obtain ⟨l, hl, hn⟩ := h
  exact ⟨m :: l, by rw [hl, List.cons_append], by
    intro hmem
    rcases List.mem_cons.mp hmem with h1 | h2
    · exact hm h1.symm
    · exact hn h2⟩

theorem doneBottom_head_eq {s : List Mode} (h : DoneBottom s ∨ s = [])
    (hh : s.head? = some Mode.Done) : s = [Mode.Done] := by
  rcases h with h | rfl
  · obtain ⟨l, hl, hn⟩ := h
    subst hl
    cases l with
    | nil => rfl
    | cons a l' =>
      simp [List.head?] at hh
      exact absurd (hh ▸ List.mem_cons_self a l') hn
  · simp at hh

namespace JsonChecker

/-- The action dispatch keeps the mode-stack invariant: a successful step
keeps `Done` alone at the bottom; a failing step can at worst consume the
sentinel and leave an empty stack. -/
theorem dispatch_stack {jc : JsonChecker} (ns : State) (h : DoneBottom jc.stack) :
    ((dispatch jc ns).2 = none → DoneBottom (dispatch jc ns).1.stack) ∧
    (DoneBottom (dispatch jc ns).1.stack ∨ (dispatch jc ns).1.stack = []) := by
  unfold dispatch
  split
  all_goals repeat' split
  all_goals try exact ⟨fun _ => h, Or.inl h⟩
  case h_1.h_1 =>
    rename_i c1 h1
    have hd := doneBottom_cons ((pop_eq_true h1).1 ▸ h) (by decide)
    exact ⟨fun _ => hd, Or.inl hd⟩
  case h_1.h_2 =>
    rename_i c1 h1
    rcases pop_eq_false h1 with ⟨hnil, rfl⟩ | ⟨x, hs, hx, -⟩
    · exact absurd hnil (doneBottom_ne_nil h)
    · by_cases hxd : x = Mode.Done
      · subst hxd
        exact ⟨fun hh => Option.noConfusion hh, Or.inr (doneBottom_cons_done (hs ▸ h))⟩
      · exact ⟨fun hh => Option.noConfusion hh, Or.inl (doneBottom_cons (hs ▸ h) hxd)⟩
  case h_2.h_1 =>
    rename_i c1 h1
    have hd := doneBottom_cons ((pop_eq_true h1).1 ▸ h) (by decide)
    exact ⟨fun _ => hd, Or.inl hd⟩
  case h_2.h_2 =>
    rename_i c1 h1
    rcases pop_eq_false h1 with ⟨hnil, rfl⟩ | ⟨x, hs, hx, -⟩
    · exact absurd hnil (doneBottom_ne_nil h)
    · by_cases hxd : x = Mode.Done
      · subst hxd
        exact ⟨fun hh => Option.noConfusion hh, Or.inr (doneBottom_cons_done (hs ▸ h))⟩
      · exact ⟨fun hh => Option.noConfusion hh, Or.inl (doneBottom_cons (hs ▸ h) hxd)⟩
  case h_3.h_1 =>
    rename_i c1 h1
    have hd := doneBottom_cons ((pop_eq_true h1).1 ▸ h) (by decide)
    exact ⟨fun _ => hd, Or.inl hd⟩
  case h_3.h_2 =>
    rename_i c1 h1
    rcases pop_eq_false h1 with ⟨hnil, rfl⟩ | ⟨x, hs, hx, -⟩
    · exact absurd hnil (doneBottom_ne_nil h)
    · by_cases hxd : x = Mode.Done
      · subst hxd
        exact ⟨fun hh => Option.noConfusion hh, Or.inr (doneBottom_cons_done (hs ▸ h))⟩
      · exact ⟨fun hh => Option.noConfusion hh, Or.inl (doneBottom_cons (hs ▸ h) hxd)⟩
  case h_4.h_1 =>
    rename_i c1 h1
    obtain ⟨-, rfl⟩ := push_eq_true h1
    exact ⟨fun _ => doneBottom_push h (by decide), Or.inl (doneBottom_push h (by decide))⟩
  case h_4.h_2 =>
    rename_i c1 h1
    obtain ⟨-, rfl⟩ := push_eq_false h1
    exact ⟨fun hh => Option.noConfusion hh, Or.inl h⟩
  case h_5.h_1 =>
    rename_i c1 h1
    obtain ⟨-, rfl⟩ := push_eq_true h1
    exact ⟨fun _ => doneBottom_push h (by decide), Or.inl (doneBottom_push h (by decide))⟩
  case h_5.h_2 =>
    rename_i c1 h1
    obtain ⟨-, rfl⟩ := push_eq_false h1
    exact ⟨fun hh => Option.noConfusion hh, Or.inl h⟩
  case h_6.h_1.h_1 =>
    rename_i c1 h1
    obtain ⟨-, rfl⟩ := push_eq_true h1
    exact ⟨fun _ => doneBottom_push h (by decide), Or.inl (doneBottom_push h (by decide))⟩
  case h_6.h_1.h_2 =>
    rename_i c1 h1
    obtain ⟨-, rfl⟩ := push_eq_false h1
    exact ⟨fun hh => Option.noConfusion hh, Or.inl h⟩
  case h_6.h_2 =>
    rename_i tail hst
    have hp : (jc.pop Mode.String).2.stack = tail := by simp [pop, hst]
    have hd : DoneBottom (jc.pop Mode.String).2.stack := by
      rw [hp]
      exact doneBottom_cons (hst ▸ h) (by decide)
    exact ⟨fun _ => hd, Or.inl hd⟩
  case h_7.h_1.h_1.h_1 =>
    rename_i c1 h1 x2 c2 h2
    have hd1 := doneBottom_cons ((pop_eq_true h1).1 ▸ h) (by decide)
    obtain ⟨-, rfl⟩ := push_eq_true h2
    exact ⟨fun _ => doneBottom_push hd1 (by decide), Or.inl (doneBottom_push hd1 (by decide))⟩
  case h_7.h_1.h_1.h_2 =>
    rename_i c1 h1 x2 c2 h2
    have hd1 := doneBottom_cons ((pop_eq_true h1).1 ▸ h) (by decide)
    obtain ⟨-, rfl⟩ := push_eq_false h2
    exact ⟨fun hh => Option.noConfusion hh, Or.inl hd1⟩
  case h_7.h_1.h_2 =>
    rename_i tail hst x1 c1 h1
    rcases pop_eq_false h1 with ⟨hnil, -⟩ | ⟨x, hs, hx, -⟩
    · rw [hst] at hnil
      exact absurd hnil (by simp)
    · rw [hst] at hs
      obtain ⟨hxo, -⟩ := List.cons.inj hs
      exact absurd hxo.symm hx
  case h_8.h_1.h_1 =>
    rename_i c1 h1 x2 c2 h2
    have hd1 := doneBottom_cons ((pop_eq_true h1).1 ▸ h) (by decide)
    obtain ⟨-, rfl⟩ := push_eq_true h2
    exact ⟨fun _ => doneBottom_push hd1 (by decide), Or.inl (doneBottom_push hd1 (by decide))⟩
  case h_8.h_1.h_2 =>
    rename_i c1 h1 x2 c2 h2
    have hd1 := doneBottom_cons ((pop_eq_true h1).1 ▸ h) (by decide)
    obtain ⟨-, rfl⟩ := push_eq_false h2
    exact ⟨fun hh => Option.noConfusion hh, Or.inl hd1⟩
  case h_8.h_2 =>
    rename_i c1 h1
    rcases pop_eq_false h1 with ⟨hnil, rfl⟩ | ⟨x, hs, hx, -⟩
    · exact absurd hnil (doneBottom_ne_nil h)
    · by_cases hxd : x = Mode.Done
      · subst hxd
        exact ⟨fun hh => Option.noConfusion hh, Or.inr (doneBottom_cons_done (hs ▸ h))⟩
      · exact ⟨fun hh => Option.noConfusion hh, Or.inl (doneBottom_cons (hs ▸ h) hxd)⟩


/-- The action dispatch keeps the current state a real grammar state:
error paths leave the state untouched, success paths assign concrete
grammar states, and the plain arm assigns the (non-action) next state. -/
theorem dispatch_state_valid {jc : JsonChecker} (ns : State)
    (h : jc.state.is_valid = true) : (dispatch jc ns).1.state.is_valid = true := by
  unfold dispatch
  split
  all_goals repeat' split
  all_goals try exact rfl
  all_goals try exact h
  case h_1.h_2 =>
    rename_i c1 h1
    rw [show c1.state = jc.state from (pop_eq_fields h1).2.2.2]
    exact h
  case h_2.h_2 =>
    rename_i c1 h1
    rw [show c1.state = jc.state from (pop_eq_fields h1).2.2.2]
    exact h
  case h_3.h_2 =>
    rename_i c1 h1
    rw [show c1.state = jc.state from (pop_eq_fields h1).2.2.2]
    exact h
  case h_4.h_2 =>
    rename_i c1 h1
    rw [show c1.state = jc.state from (push_eq_fields h1).2.2.2]
    exact h
  case h_5.h_2 =>
    rename_i c1 h1
    rw [show c1.state = jc.state from (push_eq_fields h1).2.2.2]
    exact h
  case h_6.h_1.h_2 =>
    rename_i c1 h1
    rw [show c1.state = jc.state from (push_eq_fields h1).2.2.2]
    exact h
  case h_7.h_1.h_1.h_2 =>
    rename_i c1 h1 x2 c2 h2
    rw [show c2.state = c1.state from (push_eq_fields h2).2.2.2,
        show c1.state = jc.state from (pop_eq_fields h1).2.2.2]
    exact h
  case h_7.h_1.h_2 =>
    rename_i tail hst x1 c1 h1
    rw [show c1.state = jc.state from (pop_eq_fields h1).2.2.2]
    exact h
  case h_8.h_1.h_2 =>
    rename_i c1 h1 x2 c2 h2
    rw [show c2.state = c1.state from (push_eq_fields h2).2.2.2,
        show c1.state = jc.state from (pop_eq_fields h1).2.2.2]
    exact h
  case h_8.h_2 =>
    rename_i c1 h1
    rw [show c1.state = jc.state from (pop_eq_fields h1).2.2.2]
    exact h
  case h_10 => cases ns <;> simp_all [State.is_valid]

end JsonChecker

end Ojc

namespace Ojc

/-- From the start state the (mutated) transition table can only stay
put, open an object or array, or reject. -/
theorem go_row (cl : Class) :
    lookupTransition State.Go cl = State.Go ∨
    lookupTransition State.Go cl = State.Woc ∨
    lookupTransition State.Go cl = State.Wos ∨
    lookupTransition State.Go cl = State.Invalid := by
  cases cl <;> decide

namespace JsonChecker

theorem internal_state_valid {c : JsonChecker} (b : Nat) (h : c.state.is_valid = true) :
    (c.internal_next_byte b).1.state.is_valid = true := by
  unfold internal_next_byte
  split
  · exact h
  · exact dispatch_state_valid _ (by rw [saveType_state]; exact h)

theorem internal_stack {c : JsonChecker} (b : Nat) (hd : DoneBottom c.stack) :
    ((c.internal_next_byte b).2 = none → DoneBottom (c.internal_next_byte b).1.stack) ∧
    (DoneBottom (c.internal_next_byte b).1.stack ∨ (c.internal_next_byte b).1.stack = []) := by
  unfold internal_next_byte
  split
  · exact ⟨fun _ => hd, Or.inl hd⟩
  · exact dispatch_stack _ (by rw [saveType_stack]; exact hd)

theorem internal_error (c : JsonChecker) (b : Nat) :
    (c.internal_next_byte b).1.error = c.error := by
  unfold internal_next_byte
  split
  · rfl
  · rw [(dispatch_fields _ _).2.2, saveType_error]

theorem internal_maxDepth (c : JsonChecker) (b : Nat) :
    (c.internal_next_byte b).1.maxDepth = c.maxDepth := by
  unfold internal_next_byte
  split
  · rfl
  · rw [(dispatch_fields _ _).2.1, saveType_maxDepth]

theorem internal_outer_some {c : JsonChecker} (b : Nat) {t : JsonType}
    (h : c.outerType = some t) : (c.internal_next_byte b).1.outerType = some t := by
  unfold internal_next_byte
  split
  · exact h
  · rw [(dispatch_fields _ _).1, saveType_of_some _ (by rw [h]; simp)]
    exact h

theorem internal_outer_go {c : JsonChecker} (b : Nat)
    (h4 : c.outerType = none → c.state = State.Go) :
    (c.internal_next_byte b).1.outerType = none →
      (c.internal_next_byte b).1.state = State.Go := by
  unfold internal_next_byte
  split
  · exact h4
  · intro hnone
    have hco : c.outerType = none := saveType_outer_none (by
      rw [← (dispatch_fields (saveType c (lookupTransition c.state (classify b)))
        (lookupTransition c.state (classify b))).1]
      exact hnone)
    have hgo : c.state = State.Go := h4 hco
    rw [hgo] at hnone ⊢
    rcases go_row (classify b) with hg | hg | hg | hg <;> rw [hg] at hnone ⊢
    · simp [dispatch]
    · rw [(dispatch_fields _ _).1] at hnone
      rw [saveType, if_pos hco] at hnone
      simp at hnone
    · rw [(dispatch_fields _ _).1] at hnone
      rw [saveType, if_pos hco] at hnone
      simp at hnone
    · simp [dispatch, saveType_state, hgo]

/-- The combined driver invariant: the current state is a real grammar
state; while unlatched the stack is `Done`-bottomed; even after an error
the stack can only have lost the sentinel; and the outer type is set as
soon as the automaton leaves the start state. -/
def Inv (c : JsonChecker) : Prop :=
  c.state.is_valid = true ∧
  (c.error = none → DoneBottom c.stack) ∧
  (DoneBottom c.stack ∨ c.stack = []) ∧
  (c.outerType = none → c.state = State.Go)

theorem inv_with_max_depth (d : Nat) : Inv (with_max_depth d) :=
  ⟨rfl, fun _ => doneBottom_single, Or.inl doneBottom_single, fun _ => rfl⟩

theorem inv_next_byte {c : JsonChecker} (b : Nat) (hc : Inv c) : Inv (c.next_byte b).1 := by
  obtain ⟨h1, h2, h3, h4⟩ := hc
  unfold next_byte
  cases herr : c.error with
  | some e => exact ⟨h1, h2, h3, h4⟩
  | none =>
    have hv := internal_state_valid b h1
    have hstk := internal_stack b (h2 herr)
    have hog := internal_outer_go b h4
    rcases hr : c.internal_next_byte b with ⟨c1, oe⟩
    rw [hr] at hv hstk hog
    cases oe with
    | none =>
      exact ⟨hv, fun _ => hstk.1 rfl, hstk.2, hog⟩
    | some e =>
      refine ⟨hv, fun hh => absurd hh (by simp), hstk.2, hog⟩

end JsonChecker

end Ojc

namespace Ojc

/-- A checker invariant holds at every reachable checker. -/
theorem reachable_inv {c : JsonChecker} (h : Reachable c) : JsonChecker.Inv c := by
  induction h with
  | init d => exact JsonChecker.inv_with_max_depth d
  | step c b hc ih => exact JsonChecker.inv_next_byte b ih

theorem reachable_new : Reachable JsonChecker.new :=
  Reachable.init USIZE_MAX

namespace JsonChecker

/-- A latched checker rejects every byte with the stored error and is
left untouched (the fused behaviour of `next_byte`). -/
theorem next_byte_latched {c : JsonChecker} {e : Error} (h : c.error = some e) (b : Nat) :
    c.next_byte b = (c, some e) := by
  unfold next_byte
  rw [h]

theorem feedAll_append (c : JsonChecker) (l1 l2 : List Nat) :
    feedAll c (l1 ++ l2) =
      match feedAll c l1 with
      | (c1, none) => feedAll c1 l2
      | (c1, some e) => (c1, some e) := by
  induction l1 generalizing c with
  | nil => simp [feedAll]
  | cons b rest ih =>
    simp only [List.cons_append, feedAll]
    cases hnb : c.next_byte b with
    | mk c1 oe => cases oe <;> simp [ih]

theorem reachable_feedAll {c : JsonChecker} (h : Reachable c) (l : List Nat) :
    Reachable (feedAll c l).1 := by
  induction l generalizing c with
  | nil => exact h
  | cons b rest ih =>
    show Reachable (match c.next_byte b with
      | (c1, none) => feedAll c1 rest
      | (c1, some e) => (c1, some e)).1
    cases hnb : c.next_byte b with
    | mk c1 oe =>
      have hc1 : Reachable c1 := by
        have := Reachable.step c b h
        rw [hnb] at this
        exact this
      cases oe with
      | none => exact ih hc1
      | some e => exact hc1

/-- The intermediate checker after `n` accepted `[` bytes under depth
bound `d`: proof scaffolding for the depth-bound analysis. -/
def nestedArrays (d n : Nat) : JsonChecker :=
  { state := if n = 0 then State.Go else State.Ar
    error := none
    outerType := if n = 0 then none else some JsonType.Array
    maxDepth := d
    stack := List.replicate n Mode.Array ++ [Mode.Done] }

theorem with_max_depth_eq_nested (d : Nat) : with_max_depth d = nestedArrays d 0 := rfl

theorem next_byte_open {d n : Nat} (h : n + 2 < d) :
    (nestedArrays d n).next_byte 91 = (nestedArrays d (n + 1), none) := by
  have hcl : classify 91 = Class.CLsqrb := rfl
  have hgo : lookupTransition State.Go Class.CLsqrb = State.Wos := rfl
  have har : lookupTransition State.Ar Class.CLsqrb = State.Wos := rfl
  by_cases hn : n = 0
  · subst hn
    simp [nestedArrays, next_byte, internal_next_byte, hcl, hgo, dispatch, saveType, push]
    rw [if_neg (by omega)]
  · simp [nestedArrays, next_byte, internal_next_byte, hcl, har, hn, dispatch, saveType,
      push, List.replicate_succ]
    rw [if_neg (by omega)]

theorem next_byte_open_fail {d n : Nat} (h : d ≤ n + 2) :
    (nestedArrays d n).next_byte 91 =
      ({ nestedArrays d n with
          outerType := some JsonType.Array, error := some Error.MaxDepthReached },
        some Error.MaxDepthReached) := by
  have hcl : classify 91 = Class.CLsqrb := rfl
  have hgo : lookupTransition State.Go Class.CLsqrb = State.Wos := rfl
  have har : lookupTransition State.Ar Class.CLsqrb = State.Wos := rfl
  by_cases hn : n = 0
  · subst hn
    simp [nestedArrays, next_byte, internal_next_byte, hcl, hgo, dispatch, saveType, push]
    rw [if_pos (by omega)]
  · simp [nestedArrays, next_byte, internal_next_byte, hcl, har, hn, dispatch, saveType, push]
    rw [if_pos (by omega)]

theorem feedAll_opens (d : Nat) : ∀ k n, n + k + 2 ≤ d →
    feedAll (nestedArrays d n) (List.replicate k 91) = (nestedArrays d (n + k), none) := by
  intro k
  induction k with
  | zero => intro n h; simp [feedAll]
  | succ k ih =>
    intro n h
    rw [List.replicate_succ]
    show (match (nestedArrays d n).next_byte 91 with
      | (c1, none) => feedAll c1 (List.replicate k 91)
      | (c1, some e) => (c1, some e)) = _
    rw [next_byte_open (by omega)]
    show feedAll (nestedArrays d (n + 1)) (List.replicate k 91) = _
    rw [ih (n + 1) (by omega)]
    have : n + 1 + k = n + (k + 1) := by omega
    rw [this]

end JsonChecker

end Ojc


namespace Ojc

namespace JsonChecker

theorem dispatch_Woc (jc : JsonChecker) :
    dispatch jc State.Woc =
      match jc.push Mode.Key with
      | (true, jc1) => ({ jc1 with state := State.Ob }, none)
      | (false, jc1) => (jc1, some Error.MaxDepthReached) := rfl

theorem dispatch_Wos (jc : JsonChecker) :
    dispatch jc State.Wos =
      match jc.push Mode.Array with
      | (true, jc1) => ({ jc1 with state := State.Ar }, none)
      | (false, jc1) => (jc1, some Error.MaxDepthReached) := rfl

theorem dispatch_Wec (jc : JsonChecker) :
    dispatch jc State.Wec =
      match jc.pop Mode.Key with
      | (true, jc1) => ({ jc1 with state := State.Ok }, none)
      | (false, jc1) => (jc1, some Error.EmptyCurlyBraces) := rfl

theorem dispatch_Wcu (jc : JsonChecker) :
    dispatch jc State.Wcu =
      match jc.pop Mode.Object with
      | (true, jc1) => ({ jc1 with state := State.Ok }, none)
      | (false, jc1) => (jc1, some Error.OrphanCurlyBrace) := rfl

theorem dispatch_Ws (jc : JsonChecker) :
    dispatch jc State.Ws =
      match jc.pop Mode.Array with
      | (true, jc1) => ({ jc1 with state := State.Ok }, none)
      | (false, jc1) => (jc1, some Error.OrphanSquareBrace) := rfl

theorem dispatch_open_len {jc : JsonChecker} {ns : State}
    (hw : ns = State.Woc ∨ ns = State.Wos) (hs : (dispatch jc ns).2 = none) :
    (dispatch jc ns).1.stack.length = jc.stack.length + 1 := by
  rcases hw with rfl | rfl
  · rw [dispatch_Woc] at hs ⊢
    rcases hp : jc.push Mode.Key with ⟨b1, j1⟩
    rw [hp] at hs
    cases b1
    · simp at hs
    · obtain ⟨-, rfl⟩ := push_eq_true hp
      simp
  · rw [dispatch_Wos] at hs ⊢
    rcases hp : jc.push Mode.Array with ⟨b1, j1⟩
    rw [hp] at hs
    cases b1
    · simp at hs
    · obtain ⟨-, rfl⟩ := push_eq_true hp
      simp

theorem dispatch_close_len {jc : JsonChecker} {ns : State}
    (hw : ns = State.Wcu ∨ ns = State.Ws ∨ ns = State.Wec)
    (hs : (dispatch jc ns).2 = none) :
    (dispatch jc ns).1.stack.length + 1 = jc.stack.length := by
  rcases hw with rfl | rfl | rfl
  · rw [dispatch_Wcu] at hs ⊢
    rcases hp : jc.pop Mode.Object with ⟨b1, j1⟩
    rw [hp] at hs
    cases b1
    · simp at hs
    · obtain ⟨hstk, -⟩ := pop_eq_true hp
      simp [hstk]
  · rw [dispatch_Ws] at hs ⊢
    rcases hp : jc.pop Mode.Array with ⟨b1, j1⟩
    rw [hp] at hs
    cases b1
    · simp at hs
    · obtain ⟨hstk, -⟩ := pop_eq_true hp
      simp [hstk]
  · rw [dispatch_Wec] at hs ⊢
    rcases hp : jc.pop Mode.Key with ⟨b1, j1⟩
    rw [hp] at hs
    cases b1
    · simp at hs
    · obtain ⟨hstk, -⟩ := pop_eq_true hp
      simp [hstk]

theorem next_byte_open_len {c : JsonChecker} {b : Nat} (he : c.error = none)
    (hw : lookupTransition c.state (classify b) = State.Woc ∨
          lookupTransition c.state (classify b) = State.Wos)
    (hs : (c.next_byte b).2 = none) :
    (c.next_byte b).1.stack.length = c.stack.length + 1 := by
  unfold next_byte at hs ⊢
  rw [he] at hs ⊢
  rcases hi : c.internal_next_byte b with ⟨c1, oe⟩
  cases oe with
  | some e =>
    rw [hi] at hs
    simp at hs
  | none =>
    show c1.stack.length = _
    unfold internal_next_byte at hi
    by_cases hcl : classify b = Class.Invalid
    · rw [if_pos hcl] at hi
      exact absurd (congrArg Prod.snd hi).symm (by simp)
    · rw [if_neg hcl] at hi
      have hws : (dispatch (saveType c (lookupTransition c.state (classify b)))
          (lookupTransition c.state (classify b))).2 = none := by rw [hi]
      have hlen := @dispatch_open_len
        (saveType c (lookupTransition c.state (classify b))) _ hw hws
      rw [hi] at hlen
      simp only [saveType_stack] at hlen
      exact hlen

theorem next_byte_close_len {c : JsonChecker} {b : Nat} (he : c.error = none)
    (hw : lookupTransition c.state (classify b) = State.Wcu ∨
          lookupTransition c.state (classify b) = State.Ws ∨
          lookupTransition c.state (classify b) = State.Wec)
    (hs : (c.next_byte b).2 = none) :
    (c.next_byte b).1.stack.length + 1 = c.stack.length := by
  unfold next_byte at hs ⊢
  rw [he] at hs ⊢
  rcases hi : c.internal_next_byte b with ⟨c1, oe⟩
  cases oe with
  | some e =>
    rw [hi] at hs
    simp at hs
  | none =>
    show c1.stack.length + 1 = _
    unfold internal_next_byte at hi
    by_cases hcl : classify b = Class.Invalid
    · rw [if_pos hcl] at hi
      exact absurd (congrArg Prod.snd hi).symm (by simp)
    · rw [if_neg hcl] at hi
      have hws : (dispatch (saveType c (lookupTransition c.state (classify b)))
          (lookupTransition c.state (classify b))).2 = none := by rw [hi]
      have hlen := @dispatch_close_len
        (saveType c (lookupTransition c.state (classify b))) _ hw hws
      rw [hi] at hlen
      simp only [saveType_stack] at hlen
      exact hlen

end JsonChecker

end Ojc

namespace Ojc

/-! ### Claim theorems -/

/-- C1: the one-shot validation is claimed to accept `"hello"` as
`String`, `235896`, `-235896` and `235896.` as `Number`, `true`/`false`
as `Bool`, `null` as `Null`, `["a"]` as `Array` and `{"a":1}` as
`Object`.  On this code the start-state row of the transition table
rejects every top-level scalar with `InvalidState` (contradicting the
crate's own doctests and `tests.rs`); only the array and object inputs
are accepted. -/
theorem claim_C1_eval :
    validate_bytes [34, 104, 101, 108, 108, 111, 34] = Except.error Error.InvalidState ∧
    validate_bytes [50, 51, 53, 56, 57, 54] = Except.error Error.InvalidState ∧
    validate_bytes [45, 50, 51, 53, 56, 57, 54] = Except.error Error.InvalidState ∧
    validate_bytes [50, 51, 53, 56, 57, 54, 46] = Except.error Error.InvalidState ∧
    validate_bytes [116, 114, 117, 101] = Except.error Error.InvalidState ∧
    validate_bytes [102, 97, 108, 115, 101] = Except.error Error.InvalidState ∧
    validate_bytes [110, 117, 108, 108] = Except.error Error.InvalidState ∧
    validate_bytes [91, 34, 97, 34, 93] = Except.ok (some JsonType.Array) ∧
    validate_bytes [123, 34, 97, 34, 58, 49, 125] = Except.ok (some JsonType.Object) :=
  ⟨rfl, rfl, rfl, rfl, rfl, rfl, rfl, rfl, rfl⟩

/-- C2 counterexample: after `[1]` the checker latches
`InvalidCharacter` on a NUL byte, yet `into_inner` (finalize) ignores
the latch and succeeds with `Array` instead of returning the identical
error. -/
theorem claim_C2_counterexample :
    (JsonChecker.feedAll JsonChecker.new [91, 49, 93]).2 = none ∧
    ((JsonChecker.feedAll JsonChecker.new [91, 49, 93]).1.next_byte 0).2
      = some Error.InvalidCharacter ∧
    JsonChecker.into_inner ((JsonChecker.feedAll JsonChecker.new [91, 49, 93]).1.next_byte 0).1
      = Except.ok (some JsonType.Array) :=
  ⟨rfl, rfl, rfl⟩

/-- C2 (amended): once a feed has returned an error, every subsequent
`next_byte` call returns the identical error without table lookups or
touching the checker (the checker is returned unchanged); finalize and
the skipped chunks of `next_bytes` are excluded, as they do not consult
the latch. -/
theorem claim_C2_amended {c : JsonChecker} {e : Error} (h : c.error = some e) (b : Nat) :
    c.next_byte b = (c, some e) :=
  JsonChecker.next_byte_latched h b

/-- Witness for C2 (amended) at a concrete latched checker. -/
theorem claim_C2_amended_witness :
    (JsonChecker.new.next_byte 58).1.error = some Error.InvalidState ∧
    (JsonChecker.new.next_byte 58).1.next_byte 32
      = ((JsonChecker.new.next_byte 58).1, some Error.InvalidState) :=
  ⟨rfl, claim_C2_amended rfl 32⟩

/-- C4 counterexample: with `max_depth = 3` the claim says three
openings succeed and the fourth fails, but already the second `[`
fails with `MaxDepthReached`. -/
theorem claim_C4_counterexample :
    ((JsonChecker.with_max_depth 3).next_byte 91).2 = none ∧
    (JsonChecker.feedAll (JsonChecker.with_max_depth 3) [91, 91]).2
      = some Error.MaxDepthReached :=
  ⟨rfl, rfl⟩

/-- C4 (amended): with `max_depth = d` (`d ≥ 2`), `d - 2` consecutive
openings succeed, the `(d-1)`-th fails with `MaxDepthReached`, the
stack retains its `d - 2` pushed modes rather than growing, and — the
error being latched — every subsequent opening keeps failing with
`MaxDepthReached`. -/
theorem claim_C4_amended (d k : Nat) (h : 2 ≤ d) :
    (JsonChecker.feedAll (JsonChecker.with_max_depth d) (List.replicate (d - 2) 91)).2
      = none ∧
    (JsonChecker.feedAll (JsonChecker.with_max_depth d) (List.replicate (d - 1 + k) 91)).2
      = some Error.MaxDepthReached ∧
    (JsonChecker.feedAll (JsonChecker.with_max_depth d) (List.replicate (d - 1 + k) 91)).1.stack
      = List.replicate (d - 2) Mode.Array ++ [Mode.Done] ∧
    ((JsonChecker.feedAll (JsonChecker.with_max_depth d)
        (List.replicate (d - 1 + k) 91)).1.next_byte 91).2 = some Error.MaxDepthReached := by
  have hopen := JsonChecker.feedAll_opens d (d - 2) 0 (by omega)
  have harith : d - 1 + k = (d - 2) + (k + 1) := by omega
  have hrep : List.replicate (d - 1 + k) 91 =
      List.replicate (d - 2) 91 ++ List.replicate (k + 1) 91 := by
    rw [harith, List.replicate_add]
  have hfail := JsonChecker.next_byte_open_fail (d := d) (n := d - 2) (by omega)
  have hchain : JsonChecker.feedAll (JsonChecker.with_max_depth d)
      (List.replicate (d - 1 + k) 91) =
      ({ JsonChecker.nestedArrays d (d - 2) with
          outerType := some JsonType.Array, error := some Error.MaxDepthReached },
        some Error.MaxDepthReached) := by
    rw [hrep, JsonChecker.feedAll_append, JsonChecker.with_max_depth_eq_nested, hopen]
    show JsonChecker.feedAll (JsonChecker.nestedArrays d (0 + (d - 2))) _ = _
    rw [List.replicate_succ]
    show (match (JsonChecker.nestedArrays d (0 + (d - 2))).next_byte 91 with
      | (c1, none) => JsonChecker.feedAll c1 (List.replicate k 91)
      | (c1, some e) => (c1, some e)) = _
    rw [show (0 : Nat) + (d - 2) = d - 2 from by omega, hfail]
  refine ⟨?_, ?_, ?_, ?_⟩
  · rw [JsonChecker.with_max_depth_eq_nested, hopen]
  · rw [hchain]
  · rw [hchain]
    simp [JsonChecker.nestedArrays]
  · rw [hchain]
    rw [JsonChecker.next_byte_latched (e := Error.MaxDepthReached) rfl 91]

/-- Witness for C4 (amended) at `d = 4`, `k = 2`. -/
theorem claim_C4_amended_witness :
    (JsonChecker.feedAll (JsonChecker.with_max_depth 4) (List.replicate 2 91)).2 = none ∧
    (JsonChecker.feedAll (JsonChecker.with_max_depth 4) (List.replicate 5 91)).2
      = some Error.MaxDepthReached ∧
    (JsonChecker.feedAll (JsonChecker.with_max_depth 4) (List.replicate 5 91)).1.stack
      = List.replicate 2 Mode.Array ++ [Mode.Done] ∧
    ((JsonChecker.feedAll (JsonChecker.with_max_depth 4)
        (List.replicate 5 91)).1.next_byte 91).2 = some Error.MaxDepthReached :=
  claim_C4_amended 4 2 (by decide)

/-- C5: in the string-body state, the bulk `next_bytes` skips an 8-byte
chunk free of quote/backslash/tab/newline/CR even when it contains a
NUL, returning success and leaving the checker unchanged, while feeding
the same bytes through `next_byte` fails with `InvalidCharacter`: the
fast path is not equivalent to the byte-by-byte path. -/
theorem claim_C5_eval :
    (JsonChecker.feedAll JsonChecker.new [91, 34]).1.state = State.St ∧
    (JsonChecker.feedAll JsonChecker.new [91, 34]).1.next_bytes
        [97, 97, 97, 97, 97, 97, 97, 0]
      = ((JsonChecker.feedAll JsonChecker.new [91, 34]).1, none) ∧
    (JsonChecker.feedAll (JsonChecker.feedAll JsonChecker.new [91, 34]).1
        [97, 97, 97, 97, 97, 97, 97, 0]).2 = some Error.InvalidCharacter :=
  ⟨rfl, rfl, rfl⟩

end Ojc

namespace Ojc

namespace JsonChecker

theorem dispatch_Wq (jc : JsonChecker) :
    dispatch jc State.Wq =
      match jc.stack with
      | Mode.Done :: _ =>
        match jc.push Mode.String with
        | (true, jc1) => ({ jc1 with state := State.St }, none)
        | (false, jc1) => (jc1, some Error.MaxDepthReached)
      | Mode.String :: _ => ({ (jc.pop Mode.String).2 with state := State.Ok }, none)
      | Mode.Key :: _ => ({ jc with state := State.Co }, none)
      | Mode.Array :: _ => ({ jc with state := State.Ok }, none)
      | Mode.Object :: _ => ({ jc with state := State.Ok }, none)
      | [] => (jc, some Error.InvalidQuote) := rfl

end JsonChecker

/-- C3: finalize (`into_inner`/`finish`) succeeds exactly when the
current state is terminal-acceptable (`Ok`, `In`, `Fr`, `Fs`, `E3`) and
the mode stack is exactly the bottom `Done` sentinel, returning the
recorded outer-type slot; in every other case it fails with
`IncompleteElement`.  (Stated over reachable checkers, where the only
stack whose top is `Done` is `[Done]`.) -/
theorem claim_C3_finalize {c : JsonChecker} (h : Reachable c) :
    JsonChecker.into_inner c =
      if JsonChecker.acceptState c.state = true ∧ c.stack = [Mode.Done]
      then Except.ok c.outerType
      else Except.error Error.IncompleteElement := by
  obtain ⟨-, -, hstk, -⟩ := reachable_inv h
  unfold JsonChecker.into_inner
  cases hs : c.stack with
  | nil =>
    simp [JsonChecker.pop, hs]
  | cons x rest =>
    by_cases hx : x = Mode.Done
    · subst hx
      have hr : rest = [] := by
        rw [hs] at hstk
        rcases hstk with hd | habs
        · exact doneBottom_cons_done hd
        · exact absurd habs (by simp)
      subst hr
      simp only [JsonChecker.pop, hs]
      cases ha : JsonChecker.acceptState c.state <;> simp [ha]
    · simp [JsonChecker.pop, hs, hx]

/-- Witness for C3 at the checker reached by feeding `[]`. -/
theorem claim_C3_witness :
    JsonChecker.into_inner (JsonChecker.feedAll JsonChecker.new [91, 93]).1
      = Except.ok (some JsonType.Array) := by
  rw [claim_C3_finalize (JsonChecker.reachable_feedAll reachable_new [91, 93])]
  rfl

/-- C6: when a fed byte produces the quote action (`Wq`), the driver
dispatches on the stack top: `Done` pushes a `String` mode and enters
the string-body state; `String` is popped and the state becomes accept;
`Key` yields the colon-expected state; `Array`/`Object` yield accept;
an empty stack fails with `InvalidQuote`.  (Hypotheses: no latched
error, outer type already recorded, and the depth bound not reached, so
the `String` push can succeed.) -/
theorem claim_C6_quote {c : JsonChecker} {b : Nat}
    (he : c.error = none) (ho : c.outerType ≠ none)
    (hcl : classify b ≠ Class.Invalid)
    (hq : lookupTransition c.state (classify b) = State.Wq)
    (hd : c.stack.length + 1 < c.maxDepth) :
    c.next_byte b =
      match c.stack with
      | Mode.Done :: _ =>
        ({ c with stack := Mode.String :: c.stack, state := State.St }, none)
      | Mode.String :: rest => ({ c with stack := rest, state := State.Ok }, none)
      | Mode.Key :: _ => ({ c with state := State.Co }, none)
      | Mode.Array :: _ => ({ c with state := State.Ok }, none)
      | Mode.Object :: _ => ({ c with state := State.Ok }, none)
      | [] => ({ c with error := some Error.InvalidQuote }, some Error.InvalidQuote) := by
  unfold JsonChecker.next_byte
  rw [he]
  show (match c.internal_next_byte b with
    | (c1, none) => (c1, none)
    | (c1, some e) => ({ c1 with error := some e }, some e)) = _
  unfold JsonChecker.internal_next_byte
  rw [if_neg hcl, hq, JsonChecker.saveType_of_some _ ho, JsonChecker.dispatch_Wq]
  cases hs : c.stack with
  | nil => simp [hs, he]
  | cons x rest =>
    cases x
    case Done =>
      rcases hp : c.push Mode.String with ⟨b1, j1⟩
      cases b1
      · obtain ⟨hge, -⟩ := JsonChecker.push_eq_false hp
        omega
      · obtain ⟨-, rfl⟩ := JsonChecker.push_eq_true hp
        simp [hs, he]
    case String => simp [JsonChecker.pop, hs, he]
    case Key => simp [hs, he]
    case Array => simp [hs, he]
    case Object => simp [hs, he]

end Ojc

namespace Ojc

/-- Witness for C6: a closing quote inside an array (state `St`, stack
top `Array`) moves the checker to the accept state. -/
theorem claim_C6_witness :
    JsonChecker.next_byte
      (JsonChecker.mk State.St none (some JsonType.String) 100 [Mode.Array, Mode.Done]) 34
      = (JsonChecker.mk State.Ok none (some JsonType.String) 100 [Mode.Array, Mode.Done],
         none) :=
  claim_C6_quote (c := JsonChecker.mk State.St none (some JsonType.String) 100
      [Mode.Array, Mode.Done]) (b := 34)
    rfl (by simp) (by decide) (by decide) (by decide)

/-- C7: byte classification is total over the 256 byte values: control
bytes other than tab/newline/CR classify `Invalid` and feeding one fails
with `InvalidCharacter` in every (unlatched) checker state; printable
ASCII goes through the fixed `ASCII_CLASS` table; bytes `≥ 0x80` are the
catch-all `CEtc`, never `Invalid`. -/
theorem claim_C7_classify (b : Nat) (hb : b < 256) :
    (b < 32 → b ≠ 9 → b ≠ 10 → b ≠ 13 → classify b = Class.Invalid) ∧
    (∀ c : JsonChecker, c.error = none → classify b = Class.Invalid →
      (c.next_byte b).2 = some Error.InvalidCharacter) ∧
    (32 ≤ b → b < 128 → classify b = ASCII_CLASS.getD b Class.Invalid) ∧
    (128 ≤ b → classify b = Class.CEtc ∧ classify b ≠ Class.Invalid) := by
  refine ⟨?_, ?_, ?_, ?_⟩
  · intro h1 h2 h3 h4
    have H : ∀ b' < 32, b' ≠ 9 → b' ≠ 10 → b' ≠ 13 → classify b' = Class.Invalid := by decide
    exact H b h1 h2 h3 h4
  · intro c hce hcl
    unfold JsonChecker.next_byte
    rw [hce]
    show (match c.internal_next_byte b with
      | (c1, none) => (c1, none)
      | (c1, some e) => ({ c1 with error := some e }, some e)).2 = _
    unfold JsonChecker.internal_next_byte
    rw [if_pos hcl]
  · intro h1 h2
    unfold classify
    rw [if_neg (by omega)]
  · intro h1
    constructor
    · unfold classify
      rw [if_pos (by omega)]
    · unfold classify
      rw [if_pos (by omega)]
      decide

/-- Witness for C7 at the NUL byte. -/
theorem claim_C7_witness :
    classify 0 = Class.Invalid ∧
    (JsonChecker.new.next_byte 0).2 = some Error.InvalidCharacter :=
  ⟨(claim_C7_classify 0 (by decide)).1 (by decide) (by decide) (by decide) (by decide),
   (claim_C7_classify 0 (by decide)).2.1 JsonChecker.new rfl
     ((claim_C7_classify 0 (by decide)).1 (by decide) (by decide) (by decide) (by decide))⟩

/-- C8 counterexample: feeding `[1]]` latches `OrphanSquareBrace` while
the mismatched pop removes the `Done` sentinel, leaving an empty stack —
the bottom element is not always `Done`. -/
theorem claim_C8_counterexample :
    (JsonChecker.feedAll JsonChecker.new [91, 49, 93, 93]).1.stack = [] ∧
    (JsonChecker.feedAll JsonChecker.new [91, 49, 93, 93]).2
      = some Error.OrphanSquareBrace :=
  ⟨rfl, rfl⟩

/-- C8 (amended): the stack is created as exactly `[Done]`; as long as
no error has been latched its bottom element is `Done` (and `Done`
appears nowhere else); a successful open-bracket/open-brace grows it by
one and a successful matching close shrinks it by one; and finalize
accepts only with the stack exactly `[Done]`.  (After a latched error a
mismatched pop may have removed the sentinel.) -/
theorem claim_C8_amended {c : JsonChecker} (d : Nat) (h : Reachable c) :
    (JsonChecker.with_max_depth d).stack = [Mode.Done] ∧
    (c.error = none → ∃ l, c.stack = l ++ [Mode.Done] ∧ Mode.Done ∉ l) ∧
    (∀ b, c.error = none →
      (lookupTransition c.state (classify b) = State.Woc ∨
       lookupTransition c.state (classify b) = State.Wos) →
      (c.next_byte b).2 = none →
      (c.next_byte b).1.stack.length = c.stack.length + 1) ∧
    (∀ b, c.error = none →
      (lookupTransition c.state (classify b) = State.Wcu ∨
       lookupTransition c.state (classify b) = State.Ws ∨
       lookupTransition c.state (classify b) = State.Wec) →
      (c.next_byte b).2 = none →
      (c.next_byte b).1.stack.length + 1 = c.stack.length) ∧
    (∀ t, JsonChecker.into_inner c = Except.ok t → c.stack = [Mode.Done]) := by
  obtain ⟨-, h2, h3, -⟩ := reachable_inv h
  refine ⟨rfl, h2, fun b he hw hs => JsonChecker.next_byte_open_len he hw hs,
    fun b he hw hs => JsonChecker.next_byte_close_len he hw hs, ?_⟩
  intro t hok
  unfold JsonChecker.into_inner at hok
  split at hok
  case isTrue hcond =>
    simp only [Bool.and_eq_true] at hcond
    have hpop : (c.pop Mode.Done).1 = true := hcond.2
    cases hs : c.stack with
    | nil =>
      rw [show c.pop Mode.Done = (false, c) from by simp [JsonChecker.pop, hs]] at hpop
      exact absurd hpop (by simp)
    | cons x rest =>
      have hx : x = Mode.Done := by
        have : (c.pop Mode.Done).1 = decide (x = Mode.Done) := by
          simp [JsonChecker.pop, hs]
        rw [this] at hpop
        exact of_decide_eq_true hpop
      subst hx
      rw [hs] at h3
      rcases h3 with hd | habs
      · rw [doneBottom_cons_done hd]
      · exact absurd habs (by simp)
  case isFalse => exact Except.noConfusion hok

/-- Witness for C8 (amended) at the checker reached by feeding `[`. -/
theorem claim_C8_amended_witness :
    (JsonChecker.with_max_depth 7).stack = [Mode.Done] ∧
    ((JsonChecker.new.next_byte 91).1.error = none →
      ∃ l, (JsonChecker.new.next_byte 91).1.stack = l ++ [Mode.Done] ∧ Mode.Done ∉ l) :=
  ⟨(claim_C8_amended 7 (Reachable.step _ 91 reachable_new)).1,
   (claim_C8_amended 7 (Reachable.step _ 91 reachable_new)).2.1⟩

/-- C9: feeding and finalizing never panics: every rejection is a typed
error, and whenever finalize's acceptance conditions hold the outer-type
slot is already set, so the `expect` in `into_inner` (modelled by the
`Except.ok none` result) is unreachable on every reachable checker. -/
theorem claim_C9_no_panic {c : JsonChecker} (h : Reachable c) :
    JsonChecker.into_inner c ≠ Except.ok none ∧
    (JsonChecker.acceptState c.state = true → (c.pop Mode.Done).1 = true →
      c.outerType ≠ none) := by
  obtain ⟨-, -, -, h4⟩ := reachable_inv h
  have key : JsonChecker.acceptState c.state = true → c.outerType ≠ none := by
    intro ha hnone
    rw [h4 hnone] at ha
    exact absurd ha (by decide)
  constructor
  · intro hok
    unfold JsonChecker.into_inner at hok
    split at hok
    case isTrue hcond =>
      simp only [Bool.and_eq_true] at hcond
      exact key hcond.1 (Except.ok.inj hok)
    case isFalse => exact Except.noConfusion hok
  · intro ha _
    exact key ha

/-- Witness for C9 at the checker reached by feeding `{}`. -/
theorem claim_C9_witness :
    JsonChecker.into_inner (JsonChecker.feedAll JsonChecker.new [123, 125]).1
      ≠ Except.ok none :=
  (claim_C9_no_panic (JsonChecker.reachable_feedAll reachable_new [123, 125])).1

/-- C10: after construction and after every `next_byte` call the state
field is one of the 31 real grammar states (never an action pseudo-state
nor the `Invalid` sink), so the row index `state as usize` used by the
next transition lookup is always within the table's 31 rows. -/
theorem claim_C10_state_valid {c : JsonChecker} (h : Reachable c) :
    c.state.is_valid = true ∧ c.state.toIdx < 31 := by
  have h1 := (reachable_inv h).1
  refine ⟨h1, ?_⟩
  cases hsv : c.state <;>
    first
    | decide
    | (rw [hsv] at h1; exact absurd h1 (by decide))

/-- Witness for C10 after construction and after one fed byte. -/
theorem claim_C10_witness :
    (JsonChecker.new.next_byte 91).1.state.is_valid = true ∧
    (JsonChecker.new.next_byte 91).1.state.toIdx < 31 :=
  claim_C10_state_valid (Reachable.step _ 91 reachable_new)

end Ojc
